import Mathlib

/-!
Verification of the deposit-bonus administration module
(src/models/BonusSettings.js: the settings schema with its
calculateBonus method, and the admin routes that mutate settings,
tiers and user bonus balances).

JavaScript numbers are modelled as exact rationals.  Math.round
rounds half toward positive infinity, i.e. jsRound x = floor (x + 1/2).
-/

/-- A bonus tier embedded in the settings document
(schema field bonusTiers, lines 63-82). -/
structure BonusTier where
  minDeposit : ℚ
  maxDeposit : ℚ
  bonusPercent : ℚ
  isActive : Bool
deriving DecidableEq

/-- The singleton bonus-settings document (schema lines 3-96). -/
structure Settings where
  isEnabled : Bool
  regularBonusPercent : ℚ
  firstDepositBonusPercent : ℚ
  firstDepositBonusEnabled : Bool
  minDepositForBonus : ℚ
  maxBonusAmount : ℚ
  bonusWithdrawable : Bool
  withdrawalVolumeMultiplier : ℚ
  bonusExpiryDays : ℚ
  bonusTiers : List BonusTier
  useTierBonus : Bool
  updatedBy : Option Nat
deriving DecidableEq

/-- The document produced by `this.create({})` in getSettings:
every field takes its schema default (lines 3-96, 99-105). -/
def defaultSettings : Settings where
  isEnabled := true
  regularBonusPercent := 0
  firstDepositBonusPercent := 0
  firstDepositBonusEnabled := false
  minDepositForBonus := 100
  maxBonusAmount := 0
  bonusWithdrawable := false
  withdrawalVolumeMultiplier := 3
  bonusExpiryDays := 30
  bonusTiers := []
  useTierBonus := false
  updatedBy := none

/-- JavaScript Math.round: round half toward positive infinity. -/
def jsRound (x : ℚ) : ℚ := (⌊x + 1 / 2⌋ : ℤ)

/-- Modelled from the spec (section 4.1 step 6): rounding
half away from zero, used to compare against Math.round as the code
applies it. -/
def roundHalfAwayFromZero (x : ℚ) : ℚ :=
  if 0 ≤ x then (⌊x + 1 / 2⌋ : ℤ) else -(⌊-x + 1 / 2⌋ : ℤ)

/-- The predicate passed to bonusTiers.find in calculateBonus
(lines 119-123). -/
def tierMatches (depositAmount : ℚ) (tier : BonusTier) : Bool :=
  tier.isActive && decide (depositAmount ≥ tier.minDeposit)
    && decide (depositAmount ≤ tier.maxDeposit)

/-- The percentage selection of calculateBonus (lines 112-130):
first-deposit rate, else first matching active tier (0 when no tier
matches), else the flat regular rate. -/
def selectPercent (s : Settings) (depositAmount : ℚ)
    (isFirstDeposit : Bool) : ℚ :=
  if isFirstDeposit && s.firstDepositBonusEnabled then
    s.firstDepositBonusPercent
  else if s.useTierBonus && decide (0 < s.bonusTiers.length) then
    match s.bonusTiers.find? (tierMatches depositAmount) with
    | some tier => tier.bonusPercent
    | none => 0
  else s.regularBonusPercent

/-- The cap step of calculateBonus (lines 135-137). -/
def applyCap (s : Settings) (bonusAmount : ℚ) : ℚ :=
  if 0 < s.maxBonusAmount ∧ s.maxBonusAmount < bonusAmount then
    s.maxBonusAmount
  else bonusAmount

/-- calculateBonus (lines 108-140): guards, percentage selection,
raw amount, cap, then rounding to two decimals via Math.round. -/
def calculateBonus (s : Settings) (depositAmount : ℚ)
    (isFirstDeposit : Bool) : ℚ :=
  if s.isEnabled = false then 0
  else if depositAmount < s.minDepositForBonus then 0
  else
    jsRound
      (applyCap s
        (depositAmount * selectPercent s depositAmount isFirstDeposit / 100)
        * 100) / 100

/-- Errors returned by the POST /tiers handler. -/
inductive TierError where
  | invalidField
  | rangeOrder
  | overlap
deriving DecidableEq

/-- The overlap test of the POST /tiers handler (lines 238-242),
evaluated for one existing tier.  It inspects only the range bounds. -/
def overlapsWith (minDeposit maxDeposit : ℚ) (tier : BonusTier) : Bool :=
  (decide (minDeposit ≥ tier.minDeposit)
      && decide (minDeposit ≤ tier.maxDeposit))
    || (decide (maxDeposit ≥ tier.minDeposit)
      && decide (maxDeposit ≤ tier.maxDeposit))
    || (decide (minDeposit ≤ tier.minDeposit)
      && decide (maxDeposit ≥ tier.maxDeposit))

/-- The POST /tiers handler (lines 215-270): field validation,
min-before-max check, overlap check, then append with isActive true
and record the acting admin. -/
def addTier (s : Settings) (minDeposit maxDeposit bonusPercent : ℚ)
    (admin : Nat) : Except TierError Settings :=
  if ¬ (0 ≤ minDeposit ∧ 0 ≤ maxDeposit
      ∧ 0 ≤ bonusPercent ∧ bonusPercent ≤ 100) then
    .error .invalidField
  else if minDeposit ≥ maxDeposit then
    .error .rangeOrder
  else if s.bonusTiers.any (overlapsWith minDeposit maxDeposit) then
    .error .overlap
  else
    .ok { s with
      bonusTiers :=
        s.bonusTiers ++ [⟨minDeposit, maxDeposit, bonusPercent, true⟩],
      updatedBy := some admin }

/-- Per-user bonus state (the User entity lives outside this module;
these are the two fields the adjustment route touches). -/
structure UserState where
  bonusBalance : ℚ
  totalBonusReceived : ℚ
deriving DecidableEq

/-- The audit record created by the adjustment route (lines 430-440),
restricted to its numeric fields. -/
structure TxnRecord where
  amount : ℚ
  balanceBefore : ℚ
  balanceAfter : ℚ
deriving DecidableEq

/-- The PUT /users/:userId/adjust handler (lines 397-455): reject a
negative resulting balance, otherwise update the two balance fields and
create one transaction record.  balanceBefore is written as the already
updated balance minus the amount, exactly as in the source. -/
def adjustBalance (user : UserState) (amount : ℚ) :
    Except Unit (UserState × TxnRecord) :=
  let newBonusBalance := user.bonusBalance + amount
  if newBonusBalance < 0 then .error ()
  else
    let updated : UserState :=
      { bonusBalance := newBonusBalance
        totalBonusReceived :=
          if 0 < amount then user.totalBonusReceived + amount
          else user.totalBonusReceived }
    .ok (updated,
      { amount := amount
        balanceBefore := updated.bonusBalance - amount
        balanceAfter := updated.bonusBalance })

/-- The request body of PUT /settings: every scalar field optional
(lines 172-183). -/
structure SettingsPatch where
  isEnabled : Option Bool
  regularBonusPercent : Option ℚ
  firstDepositBonusPercent : Option ℚ
  firstDepositBonusEnabled : Option Bool
  minDepositForBonus : Option ℚ
  maxBonusAmount : Option ℚ
  bonusWithdrawable : Option Bool
  withdrawalVolumeMultiplier : Option ℚ
  bonusExpiryDays : Option ℚ
  useTierBonus : Option Bool
deriving DecidableEq

/-- The PUT /settings handler (lines 170-210): each scalar field is
overwritten only when present in the body, updatedBy is always set,
and the tier list is never touched. -/
def updateSettings (s : Settings) (b : SettingsPatch) (admin : Nat) :
    Settings where
  isEnabled := b.isEnabled.getD s.isEnabled
  regularBonusPercent := b.regularBonusPercent.getD s.regularBonusPercent
  firstDepositBonusPercent :=
    b.firstDepositBonusPercent.getD s.firstDepositBonusPercent
  firstDepositBonusEnabled :=
    b.firstDepositBonusEnabled.getD s.firstDepositBonusEnabled
  minDepositForBonus := b.minDepositForBonus.getD s.minDepositForBonus
  maxBonusAmount := b.maxBonusAmount.getD s.maxBonusAmount
  bonusWithdrawable := b.bonusWithdrawable.getD s.bonusWithdrawable
  withdrawalVolumeMultiplier :=
    b.withdrawalVolumeMultiplier.getD s.withdrawalVolumeMultiplier
  bonusExpiryDays := b.bonusExpiryDays.getD s.bonusExpiryDays
  bonusTiers := s.bonusTiers
  useTierBonus := b.useTierBonus.getD s.useTierBonus
  updatedBy := some admin

/-! ### Helper lemmas -/

theorem jsRound_mono {x y : ℚ} (h : x ≤ y) : jsRound x ≤ jsRound y := by
  unfold jsRound
  exact_mod_cast Int.floor_mono (by linarith)

theorem jsRound_nonneg {x : ℚ} (h : 0 ≤ x) : 0 ≤ jsRound x := by
  unfold jsRound
  exact_mod_cast Int.floor_nonneg.mpr (by linarith)

theorem jsRound_intCast (n : ℤ) : jsRound (n : ℚ) = n := by
  unfold jsRound
  rw [Int.floor_int_add]
  norm_num

theorem jsRound_eq_roundHalfAwayFromZero {x : ℚ} (h : 0 ≤ x) :
    jsRound x = roundHalfAwayFromZero x := by
  simp [jsRound, roundHalfAwayFromZero, h]

theorem applyCap_le_cap (s : Settings) (x : ℚ) (h : 0 < s.maxBonusAmount) :
    applyCap s x ≤ s.maxBonusAmount := by
  unfold applyCap
  split
  · exact le_rfl
  · rename_i hc
    push_neg at hc
    exact hc h

theorem applyCap_nonneg (s : Settings) (x : ℚ) (h : 0 ≤ x) :
    0 ≤ applyCap s x := by
  unfold applyCap
  split
  · rename_i hc
    exact le_of_lt hc.1
  · exact h

theorem selectPercent_nonneg (s : Settings) (d : ℚ) (b : Bool)
    (hr : 0 ≤ s.regularBonusPercent) (hf : 0 ≤ s.firstDepositBonusPercent)
    (ht : ∀ t ∈ s.bonusTiers, 0 ≤ t.bonusPercent) :
    0 ≤ selectPercent s d b := by
  unfold selectPercent
  split
  · exact hf
  · split
    · rcases hfind : s.bonusTiers.find? (tierMatches d) with _ | t
      · simp
      · simpa using ht t (List.mem_of_find?_eq_some hfind)
    · exact hr

theorem tierMatches_iff (d : ℚ) (t : BonusTier) :
    tierMatches d t = true ↔
      t.isActive = true ∧ t.minDeposit ≤ d ∧ d ≤ t.maxDeposit := by
  simp [tierMatches, Bool.and_eq_true, decide_eq_true_eq, ge_iff_le, and_assoc]

theorem find_eq_some_first {α : Type} (p : α → Bool) :
    ∀ (l : List α) (a : α), l.find? p = some a →
      ∃ i : ℕ, l[i]? = some a ∧ p a = true ∧
        ∀ j, j < i → ∀ x, l[j]? = some x → p x = false := by
  intro l
  induction l with
  | nil => intro a h; simp at h
  | cons x xs ih =>
    intro a h
    by_cases hp : p x = true
    · have hx : a = x := by
        rw [List.find?_cons_of_pos _ hp] at h
        exact (Option.some_inj.mp h).symm
      subst hx
      exact ⟨0, by simp, hp, by intro j hj; omega⟩
    · have hp' : p x = false := by simpa using hp
      rw [List.find?_cons_of_neg _ (by simp [hp'])] at h
      obtain ⟨i, hget, hpa, hfirst⟩ := ih a h
      refine ⟨i + 1, by simpa using hget, hpa, ?_⟩
      intro j hj y hy
      cases j with
      | zero =>
        have : x = y := by simpa using hy
        subst this
        exact hp'
      | succ k =>
        exact hfirst k (by omega) y (by simpa using hy)

/-! ### Example configurations used by witnesses and counterexamples -/

/-- A disabled configuration. -/
def disabledSettings : Settings := { defaultSettings with isEnabled := false }

/-- A configuration with a flat 20 percent first-deposit rate on top of a
tier table and a flat regular rate, to exercise precedence. -/
def firstDepSettings : Settings :=
  { defaultSettings with
    firstDepositBonusEnabled := true
    firstDepositBonusPercent := 20
    regularBonusPercent := 7
    useTierBonus := true
    bonusTiers := [⟨0, 1000, 5, true⟩] }

/-- A sub-cent cap: 0.006 currency units. -/
def tinyCapSettings : Settings :=
  { defaultSettings with
    regularBonusPercent := 1
    minDepositForBonus := 0
    maxBonusAmount := 3 / 500 }

/-- A two-decimal cap of 30 with a flat 10 percent rate. -/
def cap30Settings : Settings :=
  { defaultSettings with
    regularBonusPercent := 10
    minDepositForBonus := 0
    maxBonusAmount := 30 }

/-! ### Claim theorems -/

/-- C7: a disabled configuration yields bonus 0 for every non-negative
deposit, and an enabled configuration yields bonus 0 for every deposit
strictly below minDepositForBonus. -/
theorem calculateBonus_disabled_or_small (s : Settings) (d : ℚ) (b : Bool)
    (hd : 0 ≤ d) :
    (s.isEnabled = false → calculateBonus s d b = 0) ∧
    (d < s.minDepositForBonus → calculateBonus s d b = 0) := by
  constructor
  · intro h
    simp [calculateBonus, h]
  · intro h
    by_cases he : s.isEnabled = false <;> simp [calculateBonus, he, h]

/-- C7 witness at the disabled default configuration and deposit 5. -/
theorem calculateBonus_disabled_or_small_witness :
    (0 ≤ (5 : ℚ)) ∧
    ((disabledSettings.isEnabled = false →
        calculateBonus disabledSettings 5 false = 0) ∧
      ((5 : ℚ) < disabledSettings.minDepositForBonus →
        calculateBonus disabledSettings 5 false = 0)) :=
  ⟨by norm_num,
    calculateBonus_disabled_or_small disabledSettings 5 false (by norm_num)⟩

/-- C10: on the lazily created default configuration every non-negative
deposit yields bonus 0, whatever the first-deposit flag. -/
theorem calculateBonus_default_eq_zero (d : ℚ) (hd : 0 ≤ d) (b : Bool) :
    calculateBonus defaultSettings d b = 0 := by
  by_cases h : d < (100 : ℚ)
  · simp [calculateBonus, defaultSettings, h]
  · cases b <;>
      norm_num [calculateBonus, selectPercent, applyCap, jsRound,
        defaultSettings, h]

/-- C10 witness at deposit 150 with the first-deposit flag set. -/
theorem calculateBonus_default_eq_zero_witness :
    (0 ≤ (150 : ℚ)) ∧ calculateBonus defaultSettings 150 true = 0 :=
  ⟨by norm_num, calculateBonus_default_eq_zero 150 (by norm_num) true⟩

/-- C5: when the deposit qualifies, the first-deposit flag is set and the
first-deposit bonus is enabled, the percentage used is
firstDepositBonusPercent, and the result is unchanged by any modification
of useTierBonus, the tier list and the regular rate. -/
theorem calculateBonus_firstDeposit_precedence (s : Settings) (d : ℚ)
    (he : s.isEnabled = true) (hmin : s.minDepositForBonus ≤ d)
    (hf : s.firstDepositBonusEnabled = true) :
    calculateBonus s d true =
      jsRound (applyCap s (d * s.firstDepositBonusPercent / 100) * 100)
        / 100 ∧
    ∀ (u : Bool) (ts : List BonusTier) (r : ℚ),
      calculateBonus
          { s with
            useTierBonus := u
            bonusTiers := ts
            regularBonusPercent := r } d true
        = calculateBonus s d true := by
  have hnl : ¬ d < s.minDepositForBonus := not_lt.mpr hmin
  constructor
  · simp [calculateBonus, he, hnl, selectPercent, hf]
  · intro u ts r
    simp [calculateBonus, he, hnl, selectPercent, hf, applyCap]

/-- C5 witness: deposit 200 on a configuration with a 20 percent
first-deposit rate, a tier table and a 7 percent regular rate. -/
theorem calculateBonus_firstDeposit_precedence_witness :
    firstDepSettings.isEnabled = true ∧
    firstDepSettings.minDepositForBonus ≤ (200 : ℚ) ∧
    firstDepSettings.firstDepositBonusEnabled = true ∧
    (calculateBonus firstDepSettings 200 true =
        jsRound
          (applyCap firstDepSettings
            (200 * firstDepSettings.firstDepositBonusPercent / 100) * 100)
          / 100 ∧
      ∀ (u : Bool) (ts : List BonusTier) (r : ℚ),
        calculateBonus
            { firstDepSettings with
              useTierBonus := u
              bonusTiers := ts
              regularBonusPercent := r } 200 true
          = calculateBonus firstDepSettings 200 true) :=
  ⟨rfl, by norm_num [firstDepSettings, defaultSettings], rfl,
    calculateBonus_firstDeposit_precedence firstDepSettings 200 rfl
      (by norm_num [firstDepSettings, defaultSettings]) rfl⟩

/-- C6: the manual adjustment fails exactly when the resulting balance
would be negative, returning an error that carries no updated state and
no audit record; on success the balance grows by the delta, the lifetime
total grows only for positive deltas, and exactly one audit record is
produced with the original balance as balanceBefore. -/
theorem adjustBalance_spec (u : UserState) (delta : ℚ) :
    (u.bonusBalance + delta < 0 → adjustBalance u delta = .error ()) ∧
    (0 ≤ u.bonusBalance + delta →
      adjustBalance u delta =
        .ok ({ bonusBalance := u.bonusBalance + delta
               totalBonusReceived :=
                 if 0 < delta then u.totalBonusReceived + delta
                 else u.totalBonusReceived },
             { amount := delta
               balanceBefore := u.bonusBalance
               balanceAfter := u.bonusBalance + delta })) := by
  constructor
  · intro h
    simp [adjustBalance, h]
  · intro h
    simp [adjustBalance, if_neg (not_lt.mpr h), add_sub_cancel_right]

/-- C6 witness: balance 50 with delta -100 is rejected. -/
theorem adjustBalance_spec_witness :
    (⟨50, 200⟩ : UserState).bonusBalance + (-100) < 0 ∧
    adjustBalance ⟨50, 200⟩ (-100) = .error () :=
  ⟨by norm_num, (adjustBalance_spec ⟨50, 200⟩ (-100)).1 (by norm_num)⟩

/-- C8: the field-by-field settings update changes only the scalar fields
present in the body plus updatedBy; every absent field, and the tier
list always, keeps its prior value. -/
theorem updateSettings_frame (s : Settings) (b : SettingsPatch) (a : Nat) :
    (b.isEnabled = none →
      (updateSettings s b a).isEnabled = s.isEnabled) ∧
    (b.regularBonusPercent = none →
      (updateSettings s b a).regularBonusPercent
        = s.regularBonusPercent) ∧
    (b.firstDepositBonusPercent = none →
      (updateSettings s b a).firstDepositBonusPercent
        = s.firstDepositBonusPercent) ∧
    (b.firstDepositBonusEnabled = none →
      (updateSettings s b a).firstDepositBonusEnabled
        = s.firstDepositBonusEnabled) ∧
    (b.minDepositForBonus = none →
      (updateSettings s b a).minDepositForBonus = s.minDepositForBonus) ∧
    (b.maxBonusAmount = none →
      (updateSettings s b a).maxBonusAmount = s.maxBonusAmount) ∧
    (b.bonusWithdrawable = none →
      (updateSettings s b a).bonusWithdrawable = s.bonusWithdrawable) ∧
    (b.withdrawalVolumeMultiplier = none →
      (updateSettings s b a).withdrawalVolumeMultiplier
        = s.withdrawalVolumeMultiplier) ∧
    (b.bonusExpiryDays = none →
      (updateSettings s b a).bonusExpiryDays = s.bonusExpiryDays) ∧
    (b.useTierBonus = none →
      (updateSettings s b a).useTierBonus = s.useTierBonus) ∧
    (updateSettings s b a).bonusTiers = s.bonusTiers ∧
    (updateSettings s b a).updatedBy = some a := by
  refine ⟨?_, ?_, ?_, ?_, ?_, ?_, ?_, ?_, ?_, ?_, rfl, rfl⟩ <;>
    intro h <;> simp [updateSettings, h]

/-- C8 witness: the all-absent body changes nothing but updatedBy. -/
theorem updateSettings_frame_witness :
    ((⟨none, none, none, none, none, none, none, none, none, none⟩ :
        SettingsPatch).isEnabled = none →
      (updateSettings firstDepSettings
          ⟨none, none, none, none, none, none, none, none, none, none⟩
          7).isEnabled = firstDepSettings.isEnabled) ∧
    ((⟨none, none, none, none, none, none, none, none, none, none⟩ :
        SettingsPatch).regularBonusPercent = none →
      (updateSettings firstDepSettings
          ⟨none, none, none, none, none, none, none, none, none, none⟩
          7).regularBonusPercent = firstDepSettings.regularBonusPercent) ∧
    ((⟨none, none, none, none, none, none, none, none, none, none⟩ :
        SettingsPatch).firstDepositBonusPercent = none →
      (updateSettings firstDepSettings
          ⟨none, none, none, none, none, none, none, none, none, none⟩
          7).firstDepositBonusPercent
        = firstDepSettings.firstDepositBonusPercent) ∧
    ((⟨none, none, none, none, none, none, none, none, none, none⟩ :
        SettingsPatch).firstDepositBonusEnabled = none →
      (updateSettings firstDepSettings
          ⟨none, none, none, none, none, none, none, none, none, none⟩
          7).firstDepositBonusEnabled
        = firstDepSettings.firstDepositBonusEnabled) ∧
    ((⟨none, none, none, none, none, none, none, none, none, none⟩ :
        SettingsPatch).minDepositForBonus = none →
      (updateSettings firstDepSettings
          ⟨none, none, none, none, none, none, none, none, none, none⟩
          7).minDepositForBonus = firstDepSettings.minDepositForBonus) ∧
    ((⟨none, none, none, none, none, none, none, none, none, none⟩ :
        SettingsPatch).maxBonusAmount = none →
      (updateSettings firstDepSettings
          ⟨none, none, none, none, none, none, none, none, none, none⟩
          7).maxBonusAmount = firstDepSettings.maxBonusAmount) ∧
    ((⟨none, none, none, none, none, none, none, none, none, none⟩ :
        SettingsPatch).bonusWithdrawable = none →
      (updateSettings firstDepSettings
          ⟨none, none, none, none, none, none, none, none, none, none⟩
          7).bonusWithdrawable = firstDepSettings.bonusWithdrawable) ∧
    ((⟨none, none, none, none, none, none, none, none, none, none⟩ :
        SettingsPatch).withdrawalVolumeMultiplier = none →
      (updateSettings firstDepSettings
          ⟨none, none, none, none, none, none, none, none, none, none⟩
          7).withdrawalVolumeMultiplier
        = firstDepSettings.withdrawalVolumeMultiplier) ∧
    ((⟨none, none, none, none, none, none, none, none, none, none⟩ :
        SettingsPatch).bonusExpiryDays = none →
      (updateSettings firstDepSettings
          ⟨none, none, none, none, none, none, none, none, none, none⟩
          7).bonusExpiryDays = firstDepSettings.bonusExpiryDays) ∧
    ((⟨none, none, none, none, none, none, none, none, none, none⟩ :
        SettingsPatch).useTierBonus = none →
      (updateSettings firstDepSettings
          ⟨none, none, none, none, none, none, none, none, none, none⟩
          7).useTierBonus = firstDepSettings.useTierBonus) ∧
    (updateSettings firstDepSettings
        ⟨none, none, none, none, none, none, none, none, none, none⟩
        7).bonusTiers = firstDepSettings.bonusTiers ∧
    (updateSettings firstDepSettings
        ⟨none, none, none, none, none, none, none, none, none, none⟩
        7).updatedBy = some 7 :=
  updateSettings_frame firstDepSettings
    ⟨none, none, none, none, none, none, none, none, none, none⟩ 7

/-- C1 counterexample: with cap 0.006 and a qualifying deposit whose raw
bonus exceeds the cap, the code clamps to 0.006 and then rounds up to
0.01, which exceeds the cap. -/
theorem calculateBonus_exceeds_cap_counterexample :
    0 < tinyCapSettings.maxBonusAmount ∧
    ¬ calculateBonus tinyCapSettings 100 false
        ≤ tinyCapSettings.maxBonusAmount := by
  norm_num [calculateBonus, selectPercent, applyCap, jsRound,
    tinyCapSettings, defaultSettings]

/-- C1 (amended): when the cap is set and has at most two decimal places
(maxBonusAmount times 100 is an integer), the result never exceeds the
cap; rounding after clamping can otherwise push the result above a cap
with more than two decimals. -/
theorem calculateBonus_le_cap (s : Settings) (d : ℚ) (b : Bool)
    (hmax : 0 < s.maxBonusAmount) (n : ℤ)
    (hn : s.maxBonusAmount * 100 = (n : ℚ)) :
    calculateBonus s d b ≤ s.maxBonusAmount := by
  unfold calculateBonus
  split
  · linarith
  · split
    · linarith
    · have h1 : applyCap s (d * selectPercent s d b / 100)
          ≤ s.maxBonusAmount := applyCap_le_cap s _ hmax
      have h2 : jsRound (applyCap s (d * selectPercent s d b / 100) * 100)
          ≤ jsRound (s.maxBonusAmount * 100) :=
        jsRound_mono (by nlinarith)
      have h3 : jsRound (s.maxBonusAmount * 100) = (n : ℚ) := by
        rw [hn]; exact jsRound_intCast n
      have h4 : jsRound (applyCap s (d * selectPercent s d b / 100) * 100)
          / 100 ≤ (n : ℚ) / 100 := by
        apply div_le_div_of_nonneg_right ?_ (by norm_num)
        · rw [← h3]; exact h2
      calc jsRound (applyCap s (d * selectPercent s d b / 100) * 100) / 100
          ≤ (n : ℚ) / 100 := h4
        _ = s.maxBonusAmount := by rw [← hn]; ring

/-- C1 witness: cap 30 with a flat 10 percent rate and deposit 500 is
clamped to exactly 30. -/
theorem calculateBonus_le_cap_witness :
    0 < cap30Settings.maxBonusAmount ∧
    cap30Settings.maxBonusAmount * 100 = ((3000 : ℤ) : ℚ) ∧
    calculateBonus cap30Settings 500 false ≤ cap30Settings.maxBonusAmount :=
  ⟨by norm_num [cap30Settings, defaultSettings],
    by norm_num [cap30Settings, defaultSettings],
    calculateBonus_le_cap cap30Settings 500 false
      (by norm_num [cap30Settings, defaultSettings]) 3000
      (by norm_num [cap30Settings, defaultSettings])⟩

/-- Existing tiers over the ranges 0 to 50 and 100 to 200. -/
def twoTierSettings : Settings :=
  { defaultSettings with
    bonusTiers := [⟨0, 50, 5, true⟩, ⟨100, 200, 10, true⟩] }

/-- C2 counterexample: adding the tier from 50 to 100 next to the
existing tiers from 0 to 50 and from 100 to 200 is rejected with the
overlap error, not appended: the inclusive test sees the shared
endpoint 50 inside the first existing range. -/
theorem addTier_boundary_touch_rejected :
    addTier twoTierSettings 50 100 7 0 = .error .overlap ∧
    ∀ s2 : Settings, addTier twoTierSettings 50 100 7 0 ≠ .ok s2 := by
  have h : addTier twoTierSettings 50 100 7 0 = .error .overlap := by
    norm_num [addTier, twoTierSettings, defaultSettings, overlapsWith]
  refine ⟨h, ?_⟩
  intro s2 hc
  rw [h] at hc
  exact Except.noConfusion hc

/-- C2 (amended): adding the tier from 50 to 100 when tiers over 0 to 50
and 100 to 200 exist fails with the overlap error for every bonus
percentage and every activity flag of the existing tiers: a shared
boundary point counts as overlap under the inclusive symmetric test. -/
theorem addTier_boundary_touch_overlap (p q bp : ℚ) (b1 b2 : Bool)
    (a : Nat) (h0 : 0 ≤ bp) (h100 : bp ≤ 100) :
    addTier
        { defaultSettings with
          bonusTiers := [⟨0, 50, p, b1⟩, ⟨100, 200, q, b2⟩] }
        50 100 bp a
      = .error .overlap := by
  norm_num [addTier, defaultSettings, overlapsWith, h0, h100]

/-- C2 witness for the amended statement, at percent 7 and active
existing tiers. -/
theorem addTier_boundary_touch_overlap_witness :
    0 ≤ (7 : ℚ) ∧ (7 : ℚ) ≤ 100 ∧
    addTier
        { defaultSettings with
          bonusTiers := [⟨0, 50, 5, true⟩, ⟨100, 200, 10, true⟩] }
        50 100 7 0
      = .error .overlap :=
  ⟨by norm_num, by norm_num,
    addTier_boundary_touch_overlap 5 10 7 true true 0
      (by norm_num) (by norm_num)⟩

/-- C9: the overlap check never reads the activity flags: any candidate
whose inclusive range meets the inclusive range of some existing tier is
rejected with the overlap error, whatever the flags on the tiers. -/
theorem addTier_overlap_ignores_active (s : Settings)
    (minD maxD bp : ℚ) (a : Nat)
    (hminv : 0 ≤ minD) (hmaxv : 0 ≤ maxD)
    (hbp0 : 0 ≤ bp) (hbp1 : bp ≤ 100) (hr : minD < maxD)
    (h : ∃ t ∈ s.bonusTiers, t.minDeposit ≤ maxD ∧ minD ≤ t.maxDeposit) :
    addTier s minD maxD bp a = .error .overlap := by
  obtain ⟨t, ht, h1, h2⟩ := h
  have hov : overlapsWith minD maxD t = true := by
    simp only [overlapsWith, Bool.or_eq_true, Bool.and_eq_true,
      decide_eq_true_eq, ge_iff_le]
    rcases le_or_lt t.minDeposit minD with hc1 | hc1
    · exact Or.inl (Or.inl ⟨hc1, h2⟩)
    · rcases le_or_lt t.maxDeposit maxD with hc2 | hc2
      · exact Or.inr ⟨le_of_lt hc1, hc2⟩
      · exact Or.inl (Or.inr ⟨h1, le_of_lt hc2⟩)
  have hany : s.bonusTiers.any (overlapsWith minD maxD) = true :=
    List.any_eq_true.mpr ⟨t, ht, hov⟩
  unfold addTier
  rw [if_neg (not_not_intro ⟨hminv, hmaxv, hbp0, hbp1⟩),
    if_neg (not_le.mpr hr), if_pos hany]

/-- A single existing tier which is inactive. -/
def inactiveTierSettings : Settings :=
  { defaultSettings with bonusTiers := [⟨0, 50, 5, false⟩] }

/-- C9 witness: the only existing tier is inactive, yet the candidate
from 40 to 60 that meets its range is rejected with the overlap error. -/
theorem addTier_overlap_ignores_active_witness :
    (∀ t ∈ inactiveTierSettings.bonusTiers, t.isActive = false) ∧
    (∃ t ∈ inactiveTierSettings.bonusTiers,
      t.minDeposit ≤ (60 : ℚ) ∧ (40 : ℚ) ≤ t.maxDeposit) ∧
    addTier inactiveTierSettings 40 60 10 3 = .error .overlap :=
  ⟨by simp [inactiveTierSettings, defaultSettings],
    ⟨⟨0, 50, 5, false⟩, by simp [inactiveTierSettings, defaultSettings],
      by norm_num, by norm_num⟩,
    addTier_overlap_ignores_active inactiveTierSettings 40 60 10 3
      (by norm_num) (by norm_num) (by norm_num) (by norm_num) (by norm_num)
      ⟨⟨0, 50, 5, false⟩, by simp [inactiveTierSettings, defaultSettings],
        by norm_num, by norm_num⟩⟩

/-- C4: for every configuration within the schema bounds and every
non-negative deposit, the result is an integer number of hundredths
(at most two decimal places, and non-negative), and on the computing
branch Math.round applied by the code coincides with rounding half away
from zero, because the amount being rounded is non-negative. -/
theorem calculateBonus_two_decimals (s : Settings) (d : ℚ) (b : Bool)
    (hd : 0 ≤ d) (hreg : 0 ≤ s.regularBonusPercent)
    (hfir : 0 ≤ s.firstDepositBonusPercent)
    (htier : ∀ t ∈ s.bonusTiers, 0 ≤ t.bonusPercent) :
    (∃ n : ℤ, 0 ≤ n ∧ calculateBonus s d b = (n : ℚ) / 100) ∧
    (s.isEnabled = true → ¬ d < s.minDepositForBonus →
      calculateBonus s d b =
        roundHalfAwayFromZero
          (applyCap s (d * selectPercent s d b / 100) * 100) / 100) := by
  have hp : 0 ≤ selectPercent s d b := selectPercent_nonneg s d b hreg hfir htier
  have hamt : 0 ≤ d * selectPercent s d b / 100 := by positivity
  have hcap : 0 ≤ applyCap s (d * selectPercent s d b / 100) :=
    applyCap_nonneg _ _ hamt
  constructor
  · unfold calculateBonus
    split
    · exact ⟨0, le_rfl, by norm_num⟩
    · split
      · exact ⟨0, le_rfl, by norm_num⟩
      · refine ⟨⌊applyCap s (d * selectPercent s d b / 100) * 100 + 1 / 2⌋,
          ?_, ?_⟩
        · rw [Int.le_floor]
          push_cast
          nlinarith
        · simp [jsRound]
  · intro he hnl
    unfold calculateBonus
    rw [if_neg (by simp [he]), if_neg hnl,
      jsRound_eq_roundHalfAwayFromZero (by nlinarith)]

/-- C4 witness at the flat-rate configuration with cap 30 and
deposit 500. -/
theorem calculateBonus_two_decimals_witness :
    (0 ≤ (500 : ℚ)) ∧ 0 ≤ cap30Settings.regularBonusPercent ∧
    0 ≤ cap30Settings.firstDepositBonusPercent ∧
    (∀ t ∈ cap30Settings.bonusTiers, 0 ≤ t.bonusPercent) ∧
    ((∃ n : ℤ, 0 ≤ n ∧
        calculateBonus cap30Settings 500 false = (n : ℚ) / 100) ∧
      (cap30Settings.isEnabled = true →
        ¬ (500 : ℚ) < cap30Settings.minDepositForBonus →
        calculateBonus cap30Settings 500 false =
          roundHalfAwayFromZero
            (applyCap cap30Settings
              (500 * selectPercent cap30Settings 500 false / 100) * 100)
            / 100)) :=
  ⟨by norm_num, by norm_num [cap30Settings, defaultSettings],
    by norm_num [cap30Settings, defaultSettings],
    by simp [cap30Settings, defaultSettings],
    calculateBonus_two_decimals cap30Settings 500 false (by norm_num)
      (by norm_num [cap30Settings, defaultSettings])
      (by norm_num [cap30Settings, defaultSettings])
      (by simp [cap30Settings, defaultSettings])⟩

/-- C3: on the tier branch (enabled, qualifying deposit, first-deposit
path not taken, tier bonus on, tiers present) either some position i
holds the first tier that is active and brackets the deposit and its
percentage is the one applied, or no tier matches and the bonus is 0,
not the flat regular rate. -/
theorem calculateBonus_tier_lookup (s : Settings) (d : ℚ) (b : Bool)
    (he : s.isEnabled = true) (hmin : s.minDepositForBonus ≤ d)
    (hnf : (b && s.firstDepositBonusEnabled) = false)
    (hu : s.useTierBonus = true) (hne : s.bonusTiers ≠ []) :
    (∃ i : ℕ, ∃ t : BonusTier, s.bonusTiers[i]? = some t ∧
        (t.isActive = true ∧ t.minDeposit ≤ d ∧ d ≤ t.maxDeposit) ∧
        (∀ j, j < i → ∀ u, s.bonusTiers[j]? = some u →
          ¬ (u.isActive = true ∧ u.minDeposit ≤ d ∧ d ≤ u.maxDeposit)) ∧
        calculateBonus s d b =
          jsRound (applyCap s (d * t.bonusPercent / 100) * 100) / 100) ∨
    ((∀ t ∈ s.bonusTiers,
        ¬ (t.isActive = true ∧ t.minDeposit ≤ d ∧ d ≤ t.maxDeposit)) ∧
      calculateBonus s d b = 0) := by
  have hlen : decide (0 < s.bonusTiers.length) = true := by
    simp [List.length_pos.mpr hne]
  have hmain : calculateBonus s d b =
      jsRound (applyCap s (d * selectPercent s d b / 100) * 100) / 100 := by
    unfold calculateBonus
    rw [if_neg (by simp [he]), if_neg (not_lt.mpr hmin)]
  rcases hfind : s.bonusTiers.find? (tierMatches d) with _ | t
  · right
    constructor
    · intro t ht hmatch
      exact List.find?_eq_none.mp hfind t ht ((tierMatches_iff d t).mpr hmatch)
    · have hsel : selectPercent s d b = 0 := by
        unfold selectPercent
        rw [if_neg (by simp [hnf]), if_pos (by simp [hu, hlen]), hfind]
      have hcap0 : applyCap s (d * 0 / 100) = 0 := by
        unfold applyCap
        rw [mul_zero, zero_div, if_neg]
        rintro ⟨h1, h2⟩
        linarith
      rw [hmain, hsel, hcap0]
      norm_num [jsRound]
  · left
    obtain ⟨i, hget, hpt, hfirst⟩ :=
      find_eq_some_first (tierMatches d) s.bonusTiers t hfind
    refine ⟨i, t, hget, (tierMatches_iff d t).mp hpt, ?_, ?_⟩
    · intro j hj u hu2 hm
      have htrue : tierMatches d u = true := (tierMatches_iff d u).mpr hm
      rw [hfirst j hj u hu2] at htrue
      exact Bool.false_ne_true htrue
    · have hsel : selectPercent s d b = t.bonusPercent := by
        unfold selectPercent
        rw [if_neg (by simp [hnf]), if_pos (by simp [hu, hlen]), hfind]
      rw [hmain, hsel]

/-- A tier configuration in which the deposit 150 falls in the second
stored tier. -/
def tierSettings : Settings :=
  { defaultSettings with
    useTierBonus := true
    minDepositForBonus := 0
    bonusTiers := [⟨0, 50, 5, true⟩, ⟨100, 200, 10, true⟩] }

/-- C3 witness: deposit 150 against the two-tier table, regular path
disabled by the first-deposit flag being off. -/
theorem calculateBonus_tier_lookup_witness :
    tierSettings.isEnabled = true ∧
    tierSettings.minDepositForBonus ≤ (150 : ℚ) ∧
    ((false && tierSettings.firstDepositBonusEnabled) = false) ∧
    tierSettings.useTierBonus = true ∧
    tierSettings.bonusTiers ≠ [] ∧
    ((∃ i : ℕ, ∃ t : BonusTier, tierSettings.bonusTiers[i]? = some t ∧
        (t.isActive = true ∧ t.minDeposit ≤ (150 : ℚ) ∧
          (150 : ℚ) ≤ t.maxDeposit) ∧
        (∀ j, j < i → ∀ u, tierSettings.bonusTiers[j]? = some u →
          ¬ (u.isActive = true ∧ u.minDeposit ≤ (150 : ℚ) ∧
            (150 : ℚ) ≤ u.maxDeposit)) ∧
        calculateBonus tierSettings 150 false =
          jsRound (applyCap tierSettings (150 * t.bonusPercent / 100) * 100)
            / 100) ∨
      ((∀ t ∈ tierSettings.bonusTiers,
          ¬ (t.isActive = true ∧ t.minDeposit ≤ (150 : ℚ) ∧
            (150 : ℚ) ≤ t.maxDeposit)) ∧
        calculateBonus tierSettings 150 false = 0)) :=
  ⟨rfl, by norm_num [tierSettings, defaultSettings], rfl, rfl,
    by simp [tierSettings, defaultSettings],
    calculateBonus_tier_lookup tierSettings 150 false rfl
      (by norm_num [tierSettings, defaultSettings]) rfl rfl
      (by simp [tierSettings, defaultSettings])⟩
